import Mathlib

/-!
Shallow embedding of the fantasy-football analytics engine of this repository
(src/data_fetcher.py, src/analyzer.py, src/trade_recommender.py, src/database.py),
together with proofs about its scoring, consistency, trend, valuation, trade
evaluation and screening logic.

Modelling conventions:
* Python floats are idealised as exact rationals (ℚ); `round(x, 2)` is modelled
  by `round2`, round-half-to-even at two decimals, matching Python's `round`.
* `np.std` takes a real square root, so the consistency path goes through ℝ
  (`Real.sqrt`); every other quantity stays in ℚ.
* The SQLite layer is modelled as an in-memory `Database` record: `stats pid`
  is the full stat-line history of a player, newest first (the source query
  orders by season/week descending), `players` is the players table (the
  source returns it ordered by name; none of the verified properties depend
  on that order), `my_team` the roster and `trade_history` the audit log.
* Python dicts used as ad-hoc result records are modelled as inductives with
  one constructor per dict shape the source can build.
-/

/-- Round-half-to-even of a rational to an integer, the semantics of Python's
`round` at integer precision. -/
def roundHalfEven (q : ℚ) : ℤ :=
  if q - ⌊q⌋ < 1/2 then ⌊q⌋
  else if 1/2 < q - ⌊q⌋ then ⌊q⌋ + 1
  else if Even ⌊q⌋ then ⌊q⌋ else ⌊q⌋ + 1

/-- Python's `round(q, 2)`. -/
def round2 (q : ℚ) : ℚ := ((roundHalfEven (q * 100) : ℤ) : ℚ) / 100

/-- Round-half-to-even of a real to an integer (for quantities that pass
through `np.std`'s square root). -/
noncomputable def roundHalfEvenR (x : ℝ) : ℤ :=
  if x - ⌊x⌋ < 1/2 then ⌊x⌋
  else if 1/2 < x - ⌊x⌋ then ⌊x⌋ + 1
  else if Even ⌊x⌋ then ⌊x⌋ else ⌊x⌋ + 1

/-- Python's `round(x, 2)` on a real value, landing in ℚ. -/
noncomputable def round2R (x : ℝ) : ℚ := ((roundHalfEvenR (x * 100) : ℤ) : ℚ) / 100

/-- `np.mean` on a list of rationals (callers guard against the empty list). -/
def np_mean (l : List ℚ) : ℚ := l.sum / (l.length : ℚ)

/-- Population variance, the square of `np.std` (numpy's default `ddof=0`). -/
def np_variance (l : List ℚ) : ℚ :=
  ((l.map (fun x => (x - np_mean l)^2)).sum) / (l.length : ℚ)

/-- `np.std`: the population standard deviation, a real square root. -/
noncomputable def np_std (l : List ℚ) : ℝ := Real.sqrt ((np_variance l : ℚ) : ℝ)

/-- The slope of `np.polyfit(x, ys, 1)` where `x = 0, 1, ..., n-1`
(`np.arange(len(points))` in `calculate_trend`): the ordinary least-squares
slope in its covariance-over-variance form. -/
def polyfit_slope (ys : List ℚ) : ℚ :=
  let xs : List ℚ := (List.range ys.length).map (fun i => (i : ℚ))
  let xbar := np_mean xs
  let ybar := np_mean ys
  (((xs.zip ys).map (fun p => (p.1 - xbar) * (p.2 - ybar))).sum) /
    ((xs.map (fun x => (x - xbar)^2)).sum)

/-! ### Scoring function (`NFLDataFetcher.calculate_fantasy_points`) -/

/-- A raw per-game stats dict, as handed to `calculate_fantasy_points`:
string keys to numeric values, with absent keys defaulting to 0 via
`dict.get(key, 0)`. -/
abbrev StatsDict := List (String × ℚ)

/-- `stats.get(key, 0)`. -/
def sget (stats : StatsDict) (key : String) : ℚ :=
  (((stats.find? (fun kv => kv.1 == key)).map (fun kv => kv.2)).getD 0)

/-- `NFLDataFetcher.calculate_fantasy_points(stats, scoring)`: the running
`points` accumulation from data_fetcher.py lines 101-127, rounded to two
decimals. The scoring format is the configuration string: `"PPR"` adds a full
point per reception, `"Half-PPR"` half a point, anything else nothing. -/
def calculate_fantasy_points (stats : StatsDict) (scoring : String) : ℚ :=
  let points : ℚ := 0
  let points := points + sget stats ("passing_yards") * (4/100)
  let points := points + sget stats ("passing_tds") * 4
  let points := points - sget stats ("interceptions") * 2
  let points := points + sget stats ("rushing_yards") * (1/10)
  let points := points + sget stats ("rushing_tds") * 6
  let points := points + sget stats ("receiving_yards") * (1/10)
  let points := points + sget stats ("receiving_tds") * 6
  let points :=
    if scoring = "PPR" then points + sget stats ("receptions") * 1
    else if scoring = "Half-PPR" then points + sget stats ("receptions") * (1/2)
    else points
  let points := points - sget stats ("fumbles") * 2
  round2 points

/-- The per-reception bonus of a scoring mode, used to state the scoring
formula in closed form. -/
def reception_bonus (scoring : String) : ℚ :=
  if scoring = "PPR" then 1 else if scoring = "Half-PPR" then 1/2 else 0

/-! ### Data model (database.py) -/

/-- A row of the `players` table. -/
structure Player where
  player_id : String
  name : String
  team : String
  position : String
deriving DecidableEq

/-- A row of the `player_stats` table. The analytics layer only ever reads
the derived `fantasy_points` column, so only it is carried here. -/
structure StatRow where
  fantasy_points : ℚ
deriving DecidableEq

/-- A row of the `trade_history` audit table (the source stores the id lists
comma-joined; the lists themselves are kept here). -/
structure TradeRecord where
  players_out : List String
  players_in : List String
  recommendation : String
  value_difference : ℚ

/-- The SQLite database state. `stats pid` is the player's full stat history,
newest first, as returned by `get_player_stats` without a limit. -/
structure Database where
  players : List Player
  stats : String → List StatRow
  my_team : List Player
  trade_history : List TradeRecord

/-- `config.WEEKS_TO_ANALYZE`. -/
def WEEKS_TO_ANALYZE : ℕ := 4

/-- `config.MIN_GAMES_PLAYED`. -/
def MIN_GAMES_PLAYED : ℕ := 2

/-- `Database.get_player_stats(player_id, weeks)`: newest-first rows, limited
to `weeks` when `weeks` is truthy (Python: `if weeks: query += LIMIT`). -/
def get_player_stats (db : Database) (pid : String) (weeks : Option ℕ) : List StatRow :=
  match weeks with
  | none => db.stats pid
  | some 0 => db.stats pid
  | some (n+1) => (db.stats pid).take (n+1)

/-- `Database.get_all_players(position)`. -/
def get_all_players (db : Database) (position : Option String) : List Player :=
  match position with
  | none => db.players
  | some pos => db.players.filter (fun p => p.position == pos)

/-- `Database.get_player_by_id(player_id)`. -/
def get_player_by_id (db : Database) (pid : String) : Option Player :=
  db.players.find? (fun p => p.player_id == pid)

/-- `TeamManager.get_team()` / `Database.get_my_team()`. -/
def get_my_team (db : Database) : List Player := db.my_team

/-- `Database.save_trade_analysis`: appends one row to the audit log. -/
def save_trade_analysis (db : Database) (players_out players_in : List String)
    (recommendation : String) (value_diff : ℚ) : Database :=
  { db with trade_history :=
      db.trade_history ++ [⟨players_out, players_in, recommendation, value_diff⟩] }

/-! ### Analyzer (analyzer.py) -/

/-- Python's `weeks or config.WEEKS_TO_ANALYZE` (both `None` and `0` are
falsy). -/
def orWeeks : Option ℕ → ℕ
  | none => WEEKS_TO_ANALYZE
  | some 0 => WEEKS_TO_ANALYZE
  | some (n+1) => n+1

/-- `PlayerAnalyzer.calculate_average_points`. -/
def calculate_average_points (db : Database) (pid : String) (weeks : Option ℕ) : ℚ :=
  let stats := get_player_stats db pid (some (orWeeks weeks))
  if stats = [] then 0
  else round2 (((stats.map (fun s => s.fantasy_points)).sum) / (stats.length : ℚ))

/-- The body of `PlayerAnalyzer.calculate_consistency` after the stats fetch,
applied to the window's fantasy-points list (the length guard is stated on the
points list, which has the same length as the fetched rows). -/
noncomputable def consistency_of (points : List ℚ) : ℚ :=
  if points.length < 2 then 0
  else if np_mean points = 0 then 0
  else round2R (max 0 (100 - (np_std points / ((np_mean points : ℚ) : ℝ)) * 100))

/-- `PlayerAnalyzer.calculate_consistency`. -/
noncomputable def calculate_consistency (db : Database) (pid : String) (weeks : Option ℕ) : ℚ :=
  consistency_of ((get_player_stats db pid (some (orWeeks weeks))).map (fun s => s.fantasy_points))

/-- `PlayerAnalyzer.calculate_trend`: reverse the newest-first window to
chronological order, fit a least-squares line, classify by the slope. -/
def calculate_trend (db : Database) (pid : String) (weeks : Option ℕ) : String × ℚ :=
  let stats := get_player_stats db pid (some (orWeeks weeks))
  if stats.length < 2 then (("insufficient_data"), 0)
  else
    let points := (stats.reverse).map (fun s => s.fantasy_points)
    let slope := polyfit_slope points
    ((if 2 < slope then ("improving")
      else if slope < -2 then ("declining")
      else ("stable")), round2 slope)

/-- The success payload of `PlayerAnalyzer.get_player_analysis`. -/
structure Analysis where
  avg_points : ℚ
  consistency : ℚ
  trend : String
  trend_value : ℚ
  recent_avg : ℚ
  earlier_avg : ℚ
  recent_stats : List StatRow
  games_played : ℕ
  total_points : ℚ

/-- The three dict shapes `get_player_analysis` can return: the bare
`{"error": "Player not found"}`, the `{"player": ..., "error": "No stats
available", ...}` dict (which still carries the player record), and the full
analysis dict. -/
inductive AnalysisResult where
  | notFound
  | noStats (player : Player)
  | ok (player : Player) (a : Analysis)

/-- `PlayerAnalyzer.get_player_analysis`. -/
noncomputable def get_player_analysis (db : Database) (pid : String) : AnalysisResult :=
  match get_player_by_id db pid with
  | none => AnalysisResult.notFound
  | some player =>
    let stats := get_player_stats db pid (some WEEKS_TO_ANALYZE)
    if stats = [] then AnalysisResult.noStats player
    else
      let recent_avg : ℚ :=
        if 2 ≤ stats.length then np_mean ((stats.take 2).map (fun s => s.fantasy_points)) else 0
      let earlier_avg : ℚ :=
        if 2 < stats.length then np_mean ((stats.drop 2).map (fun s => s.fantasy_points))
        else recent_avg
      AnalysisResult.ok player {
        avg_points := calculate_average_points db pid none
        consistency := calculate_consistency db pid none
        trend := (calculate_trend db pid none).1
        trend_value := (calculate_trend db pid none).2
        recent_avg := round2 recent_avg
        earlier_avg := round2 earlier_avg
        recent_stats := stats.take 4
        games_played := stats.length
        total_points := round2 ((stats.map (fun s => s.fantasy_points)).sum) }

/-- One entry of `PlayerAnalyzer.get_position_rankings`. -/
structure RankEntry where
  player : Player
  avg_points : ℚ
  consistency : ℚ

/-- `PlayerAnalyzer.get_position_rankings`: keep only players with positive
window average, sort by average descending (Python's stable `list.sort` with
`reverse=True`). -/
noncomputable def get_position_rankings (db : Database) (position : String)
    (weeks : Option ℕ) : List RankEntry :=
  let rankings := (get_all_players db (some position)).filterMap (fun player =>
    let avg := calculate_average_points db player.player_id weeks
    if 0 < avg then
      some { player := player, avg_points := avg,
             consistency := calculate_consistency db player.player_id weeks }
    else none)
  rankings.mergeSort (fun a b => b.avg_points ≤ a.avg_points)

/-- The success payload of `PlayerAnalyzer.compare_players`. -/
structure Comparison where
  player1 : Player
  player2 : Player
  analysis1 : Analysis
  analysis2 : Analysis
  points_difference : ℚ
  points_winner : String
  consistency_difference : ℚ
  consistency_winner : String

/-- The two dict shapes `compare_players` can return. -/
inductive CompareResult where
  | error (msg : String)
  | ok (c : Comparison)

/-- `PlayerAnalyzer.compare_players`: any error in either analysis collapses
to the one generic error dict of analyzer.py line 142. -/
noncomputable def compare_players (db : Database) (pid1 pid2 : String) : CompareResult :=
  match get_player_analysis db pid1, get_player_analysis db pid2 with
  | AnalysisResult.ok pl1 a1, AnalysisResult.ok pl2 a2 =>
    let points_diff := a1.avg_points - a2.avg_points
    let consistency_diff := a1.consistency - a2.consistency
    CompareResult.ok {
      player1 := pl1, player2 := pl2, analysis1 := a1, analysis2 := a2,
      points_difference := round2 points_diff,
      points_winner := if 0 < points_diff then pl1.name else pl2.name,
      consistency_difference := round2 consistency_diff,
      consistency_winner := if 0 < consistency_diff then pl1.name else pl2.name }
  | _, _ => CompareResult.error ("One or both players not found or have no stats")

/-! ### Trade recommender (trade_recommender.py) -/

/-- `analysis.get('avg_points', 0)` across the three dict shapes: the no-stats
dict stores an explicit 0.0, the not-found dict lacks the key so `get`
defaults to 0. -/
def analysis_get_avg_points : AnalysisResult → ℚ
  | AnalysisResult.ok _ a => a.avg_points
  | AnalysisResult.noStats _ => 0
  | AnalysisResult.notFound => 0

/-- `analysis.get('trend', 'unknown')` across the three dict shapes. -/
def analysis_get_trend : AnalysisResult → String
  | AnalysisResult.ok _ a => a.trend
  | AnalysisResult.noStats _ => ("no_data")
  | AnalysisResult.notFound => ("unknown")

/-- `TradeRecommender.calculate_player_value`: 60% average, consistency scaled
by average, 20% trend slope; floored at 0 and rounded. Any analysis dict
containing "error" (not-found or no-stats) values to 0. -/
noncomputable def calculate_player_value (db : Database) (pid : String) : ℚ :=
  match get_player_analysis db pid with
  | AnalysisResult.ok _ a =>
    round2 (max 0 (a.avg_points * (6/10) + a.consistency * (2/1000) * a.avg_points
      + a.trend_value * (2/10)))
  | _ => 0

/-- One entry of the `giving`/`receiving` detail lists of `evaluate_trade`
(players whose id is unknown are skipped by the `if player:` guard). -/
structure PlayerDetail where
  player : Player
  value : ℚ
  avg_points : ℚ
  trend : String

/-- The detail-list construction of `evaluate_trade`. -/
noncomputable def trade_player_details (db : Database) (pids : List String) : List PlayerDetail :=
  pids.filterMap (fun pid =>
    (get_player_by_id db pid).map (fun player =>
      { player := player
        value := calculate_player_value db pid
        avg_points := analysis_get_avg_points (get_player_analysis db pid)
        trend := analysis_get_trend (get_player_analysis db pid) }))

/-- The success dict of `TradeRecommender.evaluate_trade`. The advisory
`reason` string and the positional-impact narrative appended to it are
presentation text (explicitly not part of the numeric recommendation) and are
not modelled. -/
structure TradeEval where
  giving : List PlayerDetail
  receiving : List PlayerDetail
  value_giving : ℚ
  value_receiving : ℚ
  value_difference : ℚ
  percent_change : ℚ
  recommendation : String

/-- The two dict shapes `evaluate_trade` can return. -/
inductive TradeResult where
  | error (msg : String)
  | ok (ev : TradeEval)

/-- `TradeRecommender.evaluate_trade`, including its one side effect: the
audit-log append via `save_trade_analysis` on the success path. The returned
pair is (result dict, database state after the call). -/
noncomputable def evaluate_trade (db : Database) (players_out players_in : List String) :
    TradeResult × Database :=
  if players_out = [] ∨ players_in = [] then
    (TradeResult.error ("Must specify players for both sides of trade"), db)
  else
    let value_out := (players_out.map (fun p => calculate_player_value db p)).sum
    let value_in := (players_in.map (fun p => calculate_player_value db p)).sum
    let value_diff := value_in - value_out
    let percent_change := if 0 < value_out then value_diff / value_out * 100 else 0
    let recommendation :=
      if 15 < percent_change then ("STRONG ACCEPT")
      else if 5 < percent_change then ("ACCEPT")
      else if -5 < percent_change then ("FAIR TRADE")
      else if -15 < percent_change then ("DECLINE")
      else ("STRONG DECLINE")
    (TradeResult.ok {
        giving := trade_player_details db players_out
        receiving := trade_player_details db players_in
        value_giving := round2 value_out
        value_receiving := round2 value_in
        value_difference := round2 value_diff
        percent_change := round2 percent_change
        recommendation := recommendation },
      save_trade_analysis db players_out players_in recommendation value_diff)

/-- One entry of `find_upgrade_opportunities`. -/
structure Opportunity where
  position : String
  upgrade_from : Player
  upgrade_to : Player
  value_gain : ℚ
  target_analysis : Analysis

/-- The weakest-player scan of `find_upgrade_opportunities`: the fold starts
from `float('inf')`/`None`, so the first player always replaces the initial
state and later players win only on a strictly smaller value. -/
noncomputable def weakest_scan (db : Database) (ps : List Player) : Option (ℚ × Player) :=
  ps.foldl (fun acc p =>
    let v := calculate_player_value db p.player_id
    match acc with
    | none => some (v, p)
    | some (wv, wp) => if v < wv then some (v, p) else some (wv, wp)) none

/-- The positions scanned by `find_upgrade_opportunities`. -/
def upgrade_positions : Option String → List String
  | some p => [p]
  | none => ["QB", "RB", "WR", "TE"]

/-- The games-played gate of `find_upgrade_opportunities`: a candidate whose
value qualifies is kept only if its analysis succeeded (no "error" key) with
at least 2 games played. -/
def opportunity_check (pos : String) (weakest_value : ℚ) (weakest_player available : Player)
    (available_value : ℚ) : AnalysisResult → Option Opportunity
  | AnalysisResult.ok _ analysis =>
    if 2 ≤ analysis.games_played then
      some { position := pos, upgrade_from := weakest_player, upgrade_to := available,
             value_gain := round2 (available_value - weakest_value),
             target_analysis := analysis }
    else none
  | _ => none

/-- The per-position body of `find_upgrade_opportunities`: skip positions with
no roster player, find the weakest roster value, then flag every non-roster
player at the position whose value strictly exceeds `weakest * 1.2` and whose
analysis succeeds with at least 2 games played. -/
noncomputable def pos_opportunities (db : Database) (pos : String) : List Opportunity :=
  let my_team := get_my_team db
  let my_players := my_team.filter (fun p => p.position == pos)
  match weakest_scan db my_players with
  | none => []
  | some (weakest_value, weakest_player) =>
    (get_all_players db (some pos)).filterMap (fun available =>
      if my_team.any (fun p => p.player_id == available.player_id) then none
      else
        let available_value := calculate_player_value db available.player_id
        if weakest_value * (12/10) < available_value then
          opportunity_check pos weakest_value weakest_player available available_value
            (get_player_analysis db available.player_id)
        else none)

/-- All candidates over the scanned positions, in scan order. -/
noncomputable def upgrade_candidates (db : Database) (position : Option String) :
    List Opportunity :=
  (upgrade_positions position).flatMap (fun pos => pos_opportunities db pos)

/-- `TradeRecommender.find_upgrade_opportunities`: candidates sorted by value
gain descending, capped at 10. -/
noncomputable def find_upgrade_opportunities (db : Database) (position : Option String) :
    List Opportunity :=
  ((upgrade_candidates db position).mergeSort (fun a b => b.value_gain ≤ a.value_gain)).take 10

/-! ### Concrete database states used as test vectors -/

/-- A roster RB worth exactly 10 points of trade value (two identical
12.5-point weeks: average 12.5, consistency 100, slope 0). -/
def pA : Player := ⟨"a", "Alice Back", "KC", "RB"⟩

/-- A free-agent RB worth exactly 12 points of trade value (two identical
15-point weeks). -/
def pB : Player := ⟨"b", "Bob Rusher", "SF", "RB"⟩

/-- A QB with no stat lines at all. -/
def pC : Player := ⟨"c", "Carl Thrower", "DAL", "QB"⟩

/-- Shared concrete state: `a` (on the roster) and `b` are RBs with constant
two-week histories, `c` is a statless QB, `z` is unknown. -/
def dbT : Database :=
  { players := [pA, pB, pC]
    stats := fun pid =>
      if pid = "a" then [⟨25/2⟩, ⟨25/2⟩]
      else if pid = "b" then [⟨15⟩, ⟨15⟩]
      else []
    my_team := [pA]
    trade_history := [] }

/-- A quarterback with turnover-heavy outings. -/
def pN : Player := ⟨"n", "Ned Turnover", "NYJ", "QB"⟩

/-- A player whose two-week window has negative mean: fantasy points -5 and
-10 (e.g. interception- and fumble-heavy outings). -/
def dbNeg : Database :=
  { players := [pN]
    stats := fun pid => if pid = "n" then [⟨-5⟩, ⟨-10⟩] else []
    my_team := []
    trade_history := [] }

/-- A perfectly steady receiver. -/
def pK : Player := ⟨"k", "Ken Steady", "GB", "WR"⟩

/-- A player with four identical 15-point weeks (zero variance). -/
def dbConst : Database :=
  { players := [pK]
    stats := fun pid => if pid = "k" then [⟨15⟩, ⟨15⟩, ⟨15⟩, ⟨15⟩] else []
    my_team := []
    trade_history := [] }

/-- A receiver on a perfectly linear rise. -/
def pT : Player := ⟨"t", "Tom Riser", "DET", "WR"⟩

/-- A player whose chronological points are 5, 10, 15, 20 (stored newest
first: 20, 15, 10, 5). -/
def dbTrend : Database :=
  { players := [pT]
    stats := fun pid => if pid = "t" then [⟨20⟩, ⟨15⟩, ⟨10⟩, ⟨5⟩] else []
    my_team := []
    trade_history := [] }

/-- A tight end with a single recorded game. -/
def pO : Player := ⟨"o", "Olaf Once", "MIA", "TE"⟩

/-- A player with exactly one stat line, worth 7 fantasy points. -/
def dbOne : Database :=
  { players := [pO]
    stats := fun pid => if pid = "o" then [⟨7⟩] else []
    my_team := []
    trade_history := [] }


/-- The raw (unrounded) percent change of a trade, as the spec's formula:
`(value_received - value_given) / value_given * 100`, or 0 when the given
value is not positive. Used to state C5/C7 in closed form. -/
def trade_percent_change (value_out value_in : ℚ) : ℚ :=
  if 0 < value_out then (value_in - value_out) / value_out * 100 else 0

/-- The spec's top-down recommendation threshold table on the raw percent
change. Used to state C5/C7 in closed form. -/
def trade_recommendation (percent_change : ℚ) : String :=
  if 15 < percent_change then ("STRONG ACCEPT")
  else if 5 < percent_change then ("ACCEPT")
  else if -5 < percent_change then ("FAIR TRADE")
  else if -15 < percent_change then ("DECLINE")
  else ("STRONG DECLINE")


/-- A roster RB worth exactly 10 (two identical 12.5-point weeks). -/
def pW : Player := ⟨"w", "Wes Weak", "KC", "RB"⟩

/-- A free-agent RB worth 15 (two identical 18.75-point weeks), strictly more
than 1.2 times the weakest roster value. -/
def pX : Player := ⟨"x", "Xavier Strong", "SF", "RB"⟩

/-- Concrete state on which an upgrade opportunity actually fires. -/
def dbU : Database :=
  { players := [pW, pX]
    stats := fun pid =>
      if pid = "w" then [⟨25/2⟩, ⟨25/2⟩]
      else if pid = "x" then [⟨75/4⟩, ⟨75/4⟩]
      else []
    my_team := [pW]
    trade_history := [] }

/-! ### Rounding lemmas -/

theorem roundHalfEven_le (q : ℚ) : (roundHalfEven q : ℚ) ≤ q + 1/2 := by
  unfold roundHalfEven
  have hf := Int.floor_le q
  have hf' := Int.lt_floor_add_one q
  split_ifs with h1 h2 h3 <;> push_cast at * <;> linarith

theorem roundHalfEven_ge (q : ℚ) : q - 1/2 ≤ (roundHalfEven q : ℚ) := by
  unfold roundHalfEven
  have hf := Int.floor_le q
  have hf' := Int.lt_floor_add_one q
  split_ifs with h1 h2 h3 <;> push_cast at * <;> linarith

theorem round2_nonneg (q : ℚ) (h : 0 ≤ q) : 0 ≤ round2 q := by
  unfold round2
  have h2 := roundHalfEven_ge (q * 100)
  have hq : (0:ℚ) ≤ q * 100 := by nlinarith
  have h6 : (-1 : ℚ) < (roundHalfEven (q*100) : ℚ) := by linarith
  have h7 : (-1 : ℤ) < roundHalfEven (q*100) := by exact_mod_cast h6
  have h8 : (0:ℤ) ≤ roundHalfEven (q*100) := by omega
  have h9 : (0:ℚ) ≤ ((roundHalfEven (q*100) : ℤ) : ℚ) := by exact_mod_cast h8
  exact div_nonneg h9 (by norm_num)

theorem roundHalfEvenR_le (x : ℝ) : (roundHalfEvenR x : ℝ) ≤ x + 1/2 := by
  unfold roundHalfEvenR
  have hf := Int.floor_le x
  have hf' := Int.lt_floor_add_one x
  split_ifs with h1 h2 h3 <;> push_cast at * <;> linarith

theorem roundHalfEvenR_ge (x : ℝ) : x - 1/2 ≤ (roundHalfEvenR x : ℝ) := by
  unfold roundHalfEvenR
  have hf := Int.floor_le x
  have hf' := Int.lt_floor_add_one x
  split_ifs with h1 h2 h3 <;> push_cast at * <;> linarith

theorem round2R_nonneg (x : ℝ) (h : 0 ≤ x) : 0 ≤ round2R x := by
  unfold round2R
  have h2 := roundHalfEvenR_ge (x * 100)
  have hx : (0:ℝ) ≤ x * 100 := by nlinarith
  have h6 : (-1 : ℝ) < (roundHalfEvenR (x*100) : ℝ) := by linarith
  have h7 : (-1 : ℤ) < roundHalfEvenR (x*100) := by exact_mod_cast h6
  have h8 : (0:ℤ) ≤ roundHalfEvenR (x*100) := by omega
  have h9 : (0:ℚ) ≤ ((roundHalfEvenR (x*100) : ℤ) : ℚ) := by exact_mod_cast h8
  exact div_nonneg h9 (by norm_num)

theorem round2R_le_100 (x : ℝ) (h : x ≤ 100) : round2R x ≤ 100 := by
  unfold round2R
  have h2 := roundHalfEvenR_le (x * 100)
  have h6 : (roundHalfEvenR (x*100) : ℝ) ≤ 10000 + 1/2 := by nlinarith
  have h7 : roundHalfEvenR (x*100) ≤ 10000 := by
    have : (roundHalfEvenR (x*100) : ℝ) < 10001 := by linarith
    exact_mod_cast Int.lt_add_one_iff.mp (by exact_mod_cast this)
  have h8 : ((roundHalfEvenR (x*100) : ℤ) : ℚ) ≤ 10000 := by exact_mod_cast h7
  rw [div_le_iff₀ (by norm_num : (0:ℚ) < 100)]
  linarith

theorem roundHalfEvenR_cast (q : ℚ) : roundHalfEvenR (q : ℝ) = roundHalfEven q := by
  unfold roundHalfEvenR roundHalfEven
  rw [Rat.floor_cast]
  have h1 : ((q : ℝ) - (⌊q⌋ : ℤ) < 1/2) ↔ (q - (⌊q⌋ : ℤ) < 1/2) := by
    rw [show ((q:ℝ) - ((⌊q⌋:ℤ):ℝ)) = (((q - (⌊q⌋:ℤ) : ℚ)):ℝ) by push_cast; ring,
        show ((1:ℝ)/2) = (((1/2:ℚ)):ℝ) by norm_num]
    exact Rat.cast_lt
  have h2 : ((1:ℝ)/2 < (q : ℝ) - (⌊q⌋ : ℤ)) ↔ ((1:ℚ)/2 < q - (⌊q⌋ : ℤ)) := by
    rw [show ((q:ℝ) - ((⌊q⌋:ℤ):ℝ)) = (((q - (⌊q⌋:ℤ) : ℚ)):ℝ) by push_cast; ring,
        show ((1:ℝ)/2) = (((1/2:ℚ)):ℝ) by norm_num]
    exact Rat.cast_lt
  simp only [h1, h2]

theorem round2R_cast (q : ℚ) : round2R (q : ℝ) = round2 q := by
  unfold round2R round2
  rw [show ((q : ℝ) * 100) = ((q * 100 : ℚ) : ℝ) by push_cast; ring, roundHalfEvenR_cast]

/-! ### Statistics lemmas -/

theorem np_std_eq (l : List ℚ) (s : ℚ) (h0 : 0 ≤ s) (hs : s * s = np_variance l) :
    np_std l = ((s : ℚ) : ℝ) := by
  unfold np_std
  rw [← hs]
  push_cast
  rw [show ((s:ℝ) * s) = (s:ℝ)^2 by ring, Real.sqrt_sq (by exact_mod_cast h0)]

theorem np_std_nonneg (l : List ℚ) : 0 ≤ np_std l := Real.sqrt_nonneg _

theorem np_mean_const (l : List ℚ) (c : ℚ) (hne : l ≠ []) (hc : ∀ x ∈ l, x = c) :
    np_mean l = c := by
  unfold np_mean
  have hsum : l.sum = c * l.length := by
    induction l with
    | nil => simp
    | cons a t ih =>
      rcases eq_or_ne t [] with rfl | hts
      · simp [hc a (by simp)]
      · have := ih hts (fun x hx => hc x (List.mem_cons_of_mem a hx))
        simp only [List.sum_cons, this, hc a (by simp), List.length_cons]
        push_cast
        ring
  rw [hsum]
  have hlen0 : l.length ≠ 0 := fun h => hne (List.length_eq_zero.mp h)
  have hlen : (l.length : ℚ) ≠ 0 := Nat.cast_ne_zero.mpr hlen0
  field_simp

theorem np_variance_const (l : List ℚ) (c : ℚ) (hc : ∀ x ∈ l, x = c) :
    np_variance l = 0 := by
  rcases eq_or_ne l [] with rfl | hne
  · simp [np_variance]
  · unfold np_variance
    rw [np_mean_const l c hne hc]
    have : (l.map (fun x => (x - c)^2)) = l.map (fun _ => (0:ℚ)) := by
      apply List.map_congr_left
      intro x hx
      rw [hc x hx]
      ring
    rw [this]
    simp

theorem consistency_of_nonneg (points : List ℚ) : 0 ≤ consistency_of points := by
  unfold consistency_of
  split_ifs with h1 h2
  · exact le_refl 0
  · exact le_refl 0
  · exact round2R_nonneg _ (le_max_left _ _)

theorem consistency_of_le_100 (points : List ℚ) (h : 0 ≤ np_mean points) :
    consistency_of points ≤ 100 := by
  unfold consistency_of
  split_ifs with h1 h2
  · norm_num
  · norm_num
  · apply round2R_le_100
    have hmean : (0:ℝ) < ((np_mean points : ℚ) : ℝ) := by
      have : (0:ℚ) < np_mean points := lt_of_le_of_ne h (Ne.symm h2)
      exact_mod_cast this
    have hstd := np_std_nonneg points
    have hdiv : (0:ℝ) ≤ (np_std points / ((np_mean points : ℚ) : ℝ)) * 100 := by
      apply mul_nonneg (div_nonneg hstd (le_of_lt hmean))
      norm_num
    have : (100:ℝ) - (np_std points / ((np_mean points : ℚ) : ℝ)) * 100 ≤ 100 := by linarith
    exact max_le (by norm_num) this

theorem consistency_of_const (points : List ℚ) (c : ℚ) (hc : c ≠ 0)
    (hlen : 2 ≤ points.length) (hall : ∀ x ∈ points, x = c) :
    consistency_of points = 100 := by
  have hne : points ≠ [] := by
    intro h
    rw [h] at hlen
    simp at hlen
  have hmean : np_mean points = c := np_mean_const points c hne hall
  have hstd : np_std points = ((0 : ℚ) : ℝ) := by
    apply np_std_eq points 0 le_rfl
    rw [np_variance_const points c hall]
    ring
  unfold consistency_of
  rw [if_neg (by omega), hmean, if_neg hc, hstd]
  have : (max 0 (100 - ((((0:ℚ)):ℝ) / ((c:ℚ):ℝ)) * 100)) = (((100:ℚ)):ℝ) := by
    push_cast
    rw [max_eq_right] <;> norm_num
  rw [this, round2R_cast]
  norm_num [round2, roundHalfEven]

theorem consistency_of_eq_rat (points : List ℚ) (s : ℚ) (h0 : 0 ≤ s)
    (hs : s * s = np_variance points) (hlen : 2 ≤ points.length)
    (hmean : np_mean points ≠ 0) :
    consistency_of points = round2 (max 0 (100 - s / np_mean points * 100)) := by
  unfold consistency_of
  rw [if_neg (by omega), if_neg hmean, np_std_eq points s h0 hs]
  rw [show ((((s:ℚ)):ℝ) / ((np_mean points : ℚ) : ℝ) * 100) =
        (((s / np_mean points * 100 : ℚ)):ℝ) by push_cast; ring]
  rw [show ((100:ℝ) - (((s / np_mean points * 100 : ℚ)):ℝ)) =
        (((100 - s / np_mean points * 100 : ℚ)):ℝ) by push_cast; ring]
  rw [show (max 0 (((100 - s / np_mean points * 100 : ℚ)):ℝ)) =
        (((max 0 (100 - s / np_mean points * 100) : ℚ)):ℝ) by
      rw [Rat.cast_max]; norm_num]
  rw [round2R_cast]

/-! ### Concrete evaluations on `dbT` -/

theorem dbT_find_a : get_player_by_id dbT ("a") = some pA := by
  simp [get_player_by_id, dbT, pA, pB, pC]

theorem dbT_find_b : get_player_by_id dbT ("b") = some pB := by
  simp [get_player_by_id, dbT, pA, pB, pC]

theorem dbT_find_c : get_player_by_id dbT ("c") = some pC := by
  simp [get_player_by_id, dbT, pA, pB, pC]

theorem dbT_find_z : get_player_by_id dbT ("z") = none := by
  simp [get_player_by_id, dbT, pA, pB, pC]

theorem dbT_stats_a : get_player_stats dbT ("a") (some 4) = [⟨25/2⟩, ⟨25/2⟩] := by
  simp [get_player_stats, dbT]

theorem dbT_stats_b : get_player_stats dbT ("b") (some 4) = [⟨15⟩, ⟨15⟩] := by
  simp [get_player_stats, dbT]

theorem dbT_stats_c : get_player_stats dbT ("c") (some 4) = [] := by
  simp [get_player_stats, dbT]

theorem dbT_avg_a : calculate_average_points dbT ("a") none = 25/2 := by
  rw [calculate_average_points]
  rw [show (some (orWeeks none)) = some 4 by rfl, dbT_stats_a]
  norm_num [round2, roundHalfEven]
  exact List.cons_ne_nil _ _

theorem dbT_avg_b : calculate_average_points dbT ("b") none = 15 := by
  rw [calculate_average_points]
  rw [show (some (orWeeks none)) = some 4 by rfl, dbT_stats_b]
  norm_num [round2, roundHalfEven]
  exact List.cons_ne_nil _ _

theorem dbT_cons_a : calculate_consistency dbT ("a") none = 100 := by
  rw [calculate_consistency]
  rw [show (some (orWeeks none)) = some 4 by rfl, dbT_stats_a]
  exact consistency_of_const _ (25/2) (by norm_num) (by norm_num) (by
    intro x hx
    simp at hx
    simpa using hx)

theorem dbT_cons_b : calculate_consistency dbT ("b") none = 100 := by
  rw [calculate_consistency]
  rw [show (some (orWeeks none)) = some 4 by rfl, dbT_stats_b]
  exact consistency_of_const _ 15 (by norm_num) (by norm_num) (by
    intro x hx
    simp at hx
    simpa using hx)

theorem dbT_trend_a : calculate_trend dbT ("a") none = (("stable"), 0) := by
  rw [calculate_trend]
  rw [show (some (orWeeks none)) = some 4 by rfl, dbT_stats_a]
  norm_num [polyfit_slope, np_mean, List.range_succ, round2, roundHalfEven]

theorem dbT_trend_b : calculate_trend dbT ("b") none = (("stable"), 0) := by
  rw [calculate_trend]
  rw [show (some (orWeeks none)) = some 4 by rfl, dbT_stats_b]
  norm_num [polyfit_slope, np_mean, List.range_succ, round2, roundHalfEven]

theorem dbT_ana_a : get_player_analysis dbT ("a") =
    AnalysisResult.ok pA
      { avg_points := 25/2, consistency := 100, trend := ("stable"), trend_value := 0,
        recent_avg := 25/2, earlier_avg := 25/2, recent_stats := [⟨25/2⟩, ⟨25/2⟩],
        games_played := 2, total_points := 25 } := by
  rw [get_player_analysis, dbT_find_a]
  rw [show (some WEEKS_TO_ANALYZE) = some 4 by rfl, dbT_stats_a]
  simp only [dbT_avg_a, dbT_cons_a, dbT_trend_a]
  norm_num [np_mean, round2, roundHalfEven]
  intro h
  exact (List.cons_ne_nil _ _ h).elim

theorem dbT_ana_b : get_player_analysis dbT ("b") =
    AnalysisResult.ok pB
      { avg_points := 15, consistency := 100, trend := ("stable"), trend_value := 0,
        recent_avg := 15, earlier_avg := 15, recent_stats := [⟨15⟩, ⟨15⟩],
        games_played := 2, total_points := 30 } := by
  rw [get_player_analysis, dbT_find_b]
  rw [show (some WEEKS_TO_ANALYZE) = some 4 by rfl, dbT_stats_b]
  simp only [dbT_avg_b, dbT_cons_b, dbT_trend_b]
  norm_num [np_mean, round2, roundHalfEven]
  intro h
  exact (List.cons_ne_nil _ _ h).elim

theorem dbT_ana_c : get_player_analysis dbT ("c") = AnalysisResult.noStats pC := by
  rw [get_player_analysis, dbT_find_c]
  rw [show (some WEEKS_TO_ANALYZE) = some 4 by rfl, dbT_stats_c]
  simp

theorem dbT_ana_z : get_player_analysis dbT ("z") = AnalysisResult.notFound := by
  rw [get_player_analysis, dbT_find_z]

theorem dbT_val_a : calculate_player_value dbT ("a") = 10 := by
  rw [calculate_player_value, dbT_ana_a]
  norm_num [round2, roundHalfEven]

theorem dbT_val_b : calculate_player_value dbT ("b") = 12 := by
  rw [calculate_player_value, dbT_ana_b]
  norm_num [round2, roundHalfEven]

theorem dbT_val_c : calculate_player_value dbT ("c") = 0 := by
  rw [calculate_player_value, dbT_ana_c]

theorem dbT_val_z : calculate_player_value dbT ("z") = 0 := by
  rw [calculate_player_value, dbT_ana_z]

/-! ### Concrete evaluations on the single-player databases -/

theorem dbNeg_points : (get_player_stats dbNeg ("n") (some (orWeeks none))).map
    (fun s => s.fantasy_points) = [-5, -10] := by
  simp [get_player_stats, dbNeg, orWeeks, WEEKS_TO_ANALYZE]

theorem dbNeg_cons : calculate_consistency dbNeg ("n") none = 13333/100 := by
  rw [calculate_consistency, dbNeg_points]
  rw [consistency_of_eq_rat [-5, -10] (5/2) (by norm_num)
    (by norm_num [np_variance, np_mean]) (by norm_num) (by norm_num [np_mean])]
  norm_num [np_mean, round2, roundHalfEven]

theorem dbConst_points : (get_player_stats dbConst ("k") (some (orWeeks none))).map
    (fun s => s.fantasy_points) = [15, 15, 15, 15] := by
  simp [get_player_stats, dbConst, orWeeks, WEEKS_TO_ANALYZE]

theorem dbTrend_stats : get_player_stats dbTrend ("t") (some (orWeeks none)) =
    [⟨20⟩, ⟨15⟩, ⟨10⟩, ⟨5⟩] := by
  simp [get_player_stats, dbTrend, orWeeks, WEEKS_TO_ANALYZE]

theorem dbTrend_trend : calculate_trend dbTrend ("t") none = (("improving"), 5) := by
  rw [calculate_trend, dbTrend_stats]
  norm_num [polyfit_slope, np_mean, List.range_succ, round2, roundHalfEven]

theorem dbOne_find : get_player_by_id dbOne ("o") = some pO := by
  simp [get_player_by_id, dbOne, pO]

theorem dbOne_stats : get_player_stats dbOne ("o") (some 4) = [⟨7⟩] := by
  simp [get_player_stats, dbOne]

theorem dbOne_avg : calculate_average_points dbOne ("o") none = 7 := by
  rw [calculate_average_points]
  rw [show (some (orWeeks none)) = some 4 by rfl, dbOne_stats]
  norm_num [round2, roundHalfEven]

theorem dbOne_cons : calculate_consistency dbOne ("o") none = 0 := by
  rw [calculate_consistency]
  rw [show (some (orWeeks none)) = some 4 by rfl, dbOne_stats]
  rw [consistency_of, if_pos (by norm_num)]

theorem dbOne_trend : calculate_trend dbOne ("o") none = (("insufficient_data"), 0) := by
  rw [calculate_trend]
  rw [show (some (orWeeks none)) = some 4 by rfl, dbOne_stats]
  norm_num

theorem dbOne_ana : get_player_analysis dbOne ("o") =
    AnalysisResult.ok pO
      { avg_points := 7, consistency := 0, trend := ("insufficient_data"), trend_value := 0,
        recent_avg := 0, earlier_avg := 0, recent_stats := [⟨7⟩],
        games_played := 1, total_points := 7 } := by
  rw [get_player_analysis, dbOne_find]
  rw [show (some WEEKS_TO_ANALYZE) = some 4 by rfl, dbOne_stats]
  simp only [dbOne_avg, dbOne_cons, dbOne_trend]
  norm_num [np_mean, round2, roundHalfEven]

/-! ### Concrete trade, upgrade and comparison evaluations on `dbT` -/

theorem dbT_details_a : trade_player_details dbT [("a")] =
    [{ player := pA, value := 10, avg_points := 25/2, trend := ("stable") }] := by
  simp [trade_player_details, dbT_find_a, dbT_ana_a, dbT_val_a,
    analysis_get_avg_points, analysis_get_trend]

theorem dbT_details_b : trade_player_details dbT [("b")] =
    [{ player := pB, value := 12, avg_points := 15, trend := ("stable") }] := by
  simp [trade_player_details, dbT_find_b, dbT_ana_b, dbT_val_b,
    analysis_get_avg_points, analysis_get_trend]

theorem dbT_details_z : trade_player_details dbT [("z")] = [] := by
  simp [trade_player_details, dbT_find_z]

theorem dbT_trade_ab : evaluate_trade dbT [("a")] [("b")] =
    (TradeResult.ok
      { giving := [{ player := pA, value := 10, avg_points := 25/2, trend := ("stable") }]
        receiving := [{ player := pB, value := 12, avg_points := 15, trend := ("stable") }]
        value_giving := 10, value_receiving := 12, value_difference := 2,
        percent_change := 20, recommendation := ("STRONG ACCEPT") },
      save_trade_analysis dbT [("a")] [("b")] ("STRONG ACCEPT") 2) := by
  rw [evaluate_trade, if_neg (by simp)]
  simp only [List.map_cons, List.map_nil, List.sum_cons, List.sum_nil,
    dbT_val_a, dbT_val_b, dbT_details_a, dbT_details_b]
  norm_num [round2, roundHalfEven]

theorem dbT_trade_zb : evaluate_trade dbT [("z")] [("b")] =
    (TradeResult.ok
      { giving := []
        receiving := [{ player := pB, value := 12, avg_points := 15, trend := ("stable") }]
        value_giving := 0, value_receiving := 12, value_difference := 12,
        percent_change := 0, recommendation := ("FAIR TRADE") },
      save_trade_analysis dbT [("z")] [("b")] ("FAIR TRADE") 12) := by
  rw [evaluate_trade, if_neg (by simp)]
  simp only [List.map_cons, List.map_nil, List.sum_cons, List.sum_nil,
    dbT_val_z, dbT_val_b, dbT_details_z, dbT_details_b]
  norm_num [round2, roundHalfEven]

theorem dbT_weakest_rb : weakest_scan dbT [pA] = some (10, pA) := by
  simp [weakest_scan, dbT_val_a, pA]

theorem dbT_team_filter_rb : (get_my_team dbT).filter (fun p => p.position == ("RB")) =
    [pA] := by
  simp [get_my_team, dbT, pA]

theorem dbT_all_rb : get_all_players dbT (some ("RB")) = [pA, pB] := by
  simp [get_all_players, dbT, pA, pB, pC]

theorem dbT_pos_opps_rb : pos_opportunities dbT ("RB") = [] := by
  have hGa : (get_my_team dbT).any (fun p => p.player_id == pA.player_id) = true := by
    simp [get_my_team, dbT, pA]
  have hGb : (get_my_team dbT).any (fun p => p.player_id == pB.player_id) = false := by
    simp [get_my_team, dbT, pA, pB]
  have hvb : calculate_player_value dbT pB.player_id = 12 := by
    rw [show pB.player_id = ("b") by rfl]
    exact dbT_val_b
  rw [pos_opportunities]
  simp only [dbT_team_filter_rb, dbT_weakest_rb, dbT_all_rb]
  simp only [List.filterMap_cons, List.filterMap_nil, hGa, hGb, hvb]
  norm_num

theorem dbT_upgrades_rb : find_upgrade_opportunities dbT (some ("RB")) = [] := by
  rw [find_upgrade_opportunities]
  have h1 : upgrade_candidates dbT (some ("RB")) = [] := by
    simp [upgrade_candidates, upgrade_positions, dbT_pos_opps_rb]
  rw [h1]
  simp [List.mergeSort]

theorem dbT_compare_zb : compare_players dbT ("z") ("b") =
    CompareResult.error ("One or both players not found or have no stats") := by
  rw [compare_players, dbT_ana_z, dbT_ana_b]

theorem dbT_compare_cb : compare_players dbT ("c") ("b") =
    CompareResult.error ("One or both players not found or have no stats") := by
  rw [compare_players, dbT_ana_c, dbT_ana_b]

/-! ### General facts about the analyzer -/

theorem analysis_of_not_found (db : Database) (pid : String)
    (h : get_player_by_id db pid = none) :
    get_player_analysis db pid = AnalysisResult.notFound := by
  rw [get_player_analysis, h]

theorem analysis_of_no_stats (db : Database) (pid : String) (p : Player)
    (h : get_player_by_id db pid = some p)
    (hs : get_player_stats db pid (some WEEKS_TO_ANALYZE) = []) :
    get_player_analysis db pid = AnalysisResult.noStats p := by
  rw [get_player_analysis, h]
  simp [hs]

theorem analysis_ok_eval (db : Database) (pid : String) (player : Player)
    (hfind : get_player_by_id db pid = some player)
    (hs : get_player_stats db pid (some WEEKS_TO_ANALYZE) ≠ []) :
    get_player_analysis db pid = AnalysisResult.ok player
      { avg_points := calculate_average_points db pid none
        consistency := calculate_consistency db pid none
        trend := (calculate_trend db pid none).1
        trend_value := (calculate_trend db pid none).2
        recent_avg := round2 (if 2 ≤ (get_player_stats db pid (some WEEKS_TO_ANALYZE)).length
          then np_mean (((get_player_stats db pid (some WEEKS_TO_ANALYZE)).take 2).map
            (fun s => s.fantasy_points))
          else 0)
        earlier_avg := round2 (if 2 < (get_player_stats db pid (some WEEKS_TO_ANALYZE)).length
          then np_mean (((get_player_stats db pid (some WEEKS_TO_ANALYZE)).drop 2).map
            (fun s => s.fantasy_points))
          else if 2 ≤ (get_player_stats db pid (some WEEKS_TO_ANALYZE)).length
          then np_mean (((get_player_stats db pid (some WEEKS_TO_ANALYZE)).take 2).map
            (fun s => s.fantasy_points))
          else 0)
        recent_stats := (get_player_stats db pid (some WEEKS_TO_ANALYZE)).take 4
        games_played := (get_player_stats db pid (some WEEKS_TO_ANALYZE)).length
        total_points := round2 (((get_player_stats db pid (some WEEKS_TO_ANALYZE)).map
          (fun s => s.fantasy_points)).sum) } := by
  rw [get_player_analysis, hfind]
  simp only [if_neg hs]

theorem analysis_ok_inv (db : Database) (pid : String) (p : Player) (a : Analysis)
    (h : get_player_analysis db pid = AnalysisResult.ok p a) :
    get_player_by_id db pid = some p ∧
    get_player_stats db pid (some WEEKS_TO_ANALYZE) ≠ [] ∧
    a.avg_points = calculate_average_points db pid none ∧
    a.consistency = calculate_consistency db pid none ∧
    a.trend = (calculate_trend db pid none).1 ∧
    a.trend_value = (calculate_trend db pid none).2 ∧
    a.recent_avg = round2 (if 2 ≤ (get_player_stats db pid (some WEEKS_TO_ANALYZE)).length
      then np_mean (((get_player_stats db pid (some WEEKS_TO_ANALYZE)).take 2).map
        (fun s => s.fantasy_points))
      else 0) ∧
    a.earlier_avg = round2 (if 2 < (get_player_stats db pid (some WEEKS_TO_ANALYZE)).length
      then np_mean (((get_player_stats db pid (some WEEKS_TO_ANALYZE)).drop 2).map
        (fun s => s.fantasy_points))
      else if 2 ≤ (get_player_stats db pid (some WEEKS_TO_ANALYZE)).length
      then np_mean (((get_player_stats db pid (some WEEKS_TO_ANALYZE)).take 2).map
        (fun s => s.fantasy_points))
      else 0) ∧
    a.games_played = (get_player_stats db pid (some WEEKS_TO_ANALYZE)).length := by
  cases hfind : get_player_by_id db pid with
  | none =>
    rw [analysis_of_not_found db pid hfind] at h
    exact absurd h (by simp)
  | some player =>
    by_cases hs : get_player_stats db pid (some WEEKS_TO_ANALYZE) = []
    · rw [analysis_of_no_stats db pid player hfind hs] at h
      exact absurd h (by simp)
    · rw [analysis_ok_eval db pid player hfind hs] at h
      injection h with h1 h2
      subst h1
      subst h2
      exact ⟨rfl, hs, rfl, rfl, rfl, rfl, rfl, rfl, rfl⟩

theorem analysis_no_stats_ne_not_found (p : Player) :
    AnalysisResult.noStats p ≠ AnalysisResult.notFound := by
  simp

/-! ### General facts about player valuation -/

theorem value_of_not_found (db : Database) (pid : String)
    (h : get_player_analysis db pid = AnalysisResult.notFound) :
    calculate_player_value db pid = 0 := by
  rw [calculate_player_value, h]

theorem value_of_no_stats (db : Database) (pid : String) (p : Player)
    (h : get_player_analysis db pid = AnalysisResult.noStats p) :
    calculate_player_value db pid = 0 := by
  rw [calculate_player_value, h]

theorem value_of_ok (db : Database) (pid : String) (p : Player) (a : Analysis)
    (h : get_player_analysis db pid = AnalysisResult.ok p a) :
    calculate_player_value db pid =
      round2 (max 0 (a.avg_points * (6/10) + a.consistency * (2/1000) * a.avg_points
        + a.trend_value * (2/10))) := by
  rw [calculate_player_value, h]

theorem value_nonneg (db : Database) (pid : String) : 0 ≤ calculate_player_value db pid := by
  rw [calculate_player_value]
  cases h : get_player_analysis db pid with
  | notFound => exact le_refl 0
  | noStats p => exact le_refl 0
  | ok p a => exact round2_nonneg _ (le_max_left _ _)

/-! ### Claim theorems -/

/-- C1: for every raw stat line and every scoring mode, the scoring function
returns `0.04*passing_yards + 4*passing_tds - 2*interceptions +
0.1*rushing_yards + 6*rushing_tds + 0.1*receiving_yards + 6*receiving_tds -
2*fumbles_lost + bonus*receptions` rounded to 2 decimals, with the bonus 1,
1/2 or 0 by mode, absent dict fields counting as zero by construction of
`sget`; and a stat line whose fields are all zero scores 0 in every mode. -/
theorem c1_scoring_formula (stats : StatsDict) (scoring : String) :
    calculate_fantasy_points stats scoring =
      round2 ((4/100) * sget stats ("passing_yards") + 4 * sget stats ("passing_tds")
        - 2 * sget stats ("interceptions")
        + (1/10) * sget stats ("rushing_yards") + 6 * sget stats ("rushing_tds")
        + (1/10) * sget stats ("receiving_yards") + 6 * sget stats ("receiving_tds")
        - 2 * sget stats ("fumbles")
        + reception_bonus scoring * sget stats ("receptions")) ∧
    (reception_bonus ("PPR") = 1 ∧ reception_bonus ("Half-PPR") = 1/2 ∧
      (scoring ≠ ("PPR") → scoring ≠ ("Half-PPR") → reception_bonus scoring = 0)) ∧
    ((∀ k, sget stats k = 0) → calculate_fantasy_points stats scoring = 0) := by
  have hmain : calculate_fantasy_points stats scoring =
      round2 ((4/100) * sget stats ("passing_yards") + 4 * sget stats ("passing_tds")
        - 2 * sget stats ("interceptions")
        + (1/10) * sget stats ("rushing_yards") + 6 * sget stats ("rushing_tds")
        + (1/10) * sget stats ("receiving_yards") + 6 * sget stats ("receiving_tds")
        - 2 * sget stats ("fumbles")
        + reception_bonus scoring * sget stats ("receptions")) := by
    simp only [calculate_fantasy_points, reception_bonus]
    split_ifs with h1 h2 <;> (congr 1; ring)
  refine ⟨hmain, ⟨?_, ?_, ?_⟩, fun h => ?_⟩
  · rw [reception_bonus, if_pos rfl]
  · rw [reception_bonus, if_neg (by decide), if_pos rfl]
  · intro h1 h2
    rw [reception_bonus, if_neg h1, if_neg h2]
  · rw [hmain]
    simp only [h]
    norm_num [round2, roundHalfEven]

/-- C1 witness: the empty stats dict (every field absent, hence zero) scores 0
under the standard mode, and the standard mode has no reception bonus. -/
theorem c1_scoring_formula_witness :
    calculate_fantasy_points [] ("Standard") = 0 ∧ reception_bonus ("Standard") = 0 :=
  ⟨(c1_scoring_formula [] ("Standard")).2.2 (fun _ => rfl),
   (c1_scoring_formula [] ("Standard")).2.1.2.2 (by decide) (by decide)⟩

/-- C2 counterexample: the claim says the consistency score never exceeds
100, but a two-week window with fantasy points -5 and -10 (negative mean
-7.5, stddev 2.5) yields `round2(100 - (2.5 / -7.5) * 100) = 133.33 > 100`. -/
theorem c2_consistency_counterexample :
    (100:ℚ) < calculate_consistency dbNeg ("n") none := by
  rw [dbNeg_cons]
  norm_num

/-- C2 (amended): the consistency score is never negative, and never exceeds
100 whenever the window mean is nonnegative (with a negative mean it can
exceed 100); it is 0 for fewer than 2 data points or zero mean, otherwise
equals `max(0, 100 - (population stddev / mean) * 100)` rounded to 2
decimals; and a window of at least 2 equal nonzero points scores exactly
100. -/
theorem c2_consistency_amended :
    (∀ (db : Database) (pid : String) (weeks : Option ℕ),
      calculate_consistency db pid weeks =
        consistency_of ((get_player_stats db pid (some (orWeeks weeks))).map
          (fun s => s.fantasy_points))) ∧
    (∀ points : List ℚ,
      0 ≤ consistency_of points ∧
      (points.length < 2 → consistency_of points = 0) ∧
      (np_mean points = 0 → consistency_of points = 0) ∧
      (2 ≤ points.length → np_mean points ≠ 0 →
        consistency_of points =
          round2R (max 0 (100 - (np_std points / ((np_mean points : ℚ) : ℝ)) * 100))) ∧
      (0 ≤ np_mean points → consistency_of points ≤ 100) ∧
      (∀ c : ℚ, c ≠ 0 → 2 ≤ points.length → (∀ x ∈ points, x = c) →
        consistency_of points = 100)) := by
  refine ⟨fun db pid weeks => rfl, fun points => ⟨consistency_of_nonneg points, ?_, ?_, ?_,
    consistency_of_le_100 points, fun c hc hl ha => consistency_of_const points c hc hl ha⟩⟩
  · intro h
    rw [consistency_of, if_pos h]
  · intro h
    by_cases hl : points.length < 2
    · rw [consistency_of, if_pos hl]
    · rw [consistency_of, if_neg hl, if_pos h]
  · intro hl hm
    rw [consistency_of, if_neg (by omega), if_neg hm]

/-- C2 witness: four identical 15-point weeks yield consistency exactly 100. -/
theorem c2_consistency_amended_witness : calculate_consistency dbConst ("k") none = 100 := by
  rw [c2_consistency_amended.1 dbConst ("k") none, dbConst_points]
  exact (c2_consistency_amended.2 [15, 15, 15, 15]).2.2.2.2.2 15 (by norm_num) (by norm_num)
    (by intro x hx; simpa using hx)

/-- C3: with fewer than 2 points the trend is ("insufficient_data", 0);
otherwise the newest-first window is reversed to chronological order, the
least-squares slope over indices 0..n-1 is computed, the classification is
improving/declining/stable by whether the slope exceeds 2 or falls below -2,
and the returned slope is rounded to 2 decimals; chronological points
[5,10,15,20] give slope 5 and "improving". -/
theorem c3_trend (db : Database) (pid : String) (weeks : Option ℕ) :
    ((get_player_stats db pid (some (orWeeks weeks))).length < 2 →
      calculate_trend db pid weeks = (("insufficient_data"), 0)) ∧
    (2 ≤ (get_player_stats db pid (some (orWeeks weeks))).length →
      calculate_trend db pid weeks =
        ((if 2 < polyfit_slope (((get_player_stats db pid (some (orWeeks weeks))).reverse).map
            (fun s => s.fantasy_points)) then ("improving")
          else if polyfit_slope (((get_player_stats db pid (some (orWeeks weeks))).reverse).map
            (fun s => s.fantasy_points)) < -2 then ("declining")
          else ("stable")),
         round2 (polyfit_slope (((get_player_stats db pid (some (orWeeks weeks))).reverse).map
            (fun s => s.fantasy_points))))) ∧
    calculate_trend dbTrend ("t") none = (("improving"), 5) := by
  refine ⟨fun h => ?_, fun h => ?_, dbTrend_trend⟩
  · simp only [calculate_trend, if_pos h]
  · simp only [calculate_trend, if_neg (show ¬(get_player_stats db pid
      (some (orWeeks weeks))).length < 2 by omega)]

/-- C3 witness: a single-game window has insufficient data. -/
theorem c3_trend_witness : calculate_trend dbOne ("o") none = (("insufficient_data"), 0) :=
  (c3_trend dbOne ("o") none).1 (by
    rw [show (some (orWeeks none)) = some 4 by rfl, dbOne_stats]
    norm_num)

/-- C4: a successfully analysed player's value is
`0.6*avg + 0.002*consistency*avg + 0.2*trend_slope` floored at 0 and rounded
to 2 decimals; a not-found or no-stats analysis values to 0; the value is
never negative. -/
theorem c4_player_value (db : Database) (pid : String) :
    (get_player_analysis db pid = AnalysisResult.notFound →
      calculate_player_value db pid = 0) ∧
    (∀ p, get_player_analysis db pid = AnalysisResult.noStats p →
      calculate_player_value db pid = 0) ∧
    (∀ p a, get_player_analysis db pid = AnalysisResult.ok p a →
      calculate_player_value db pid =
        round2 (max 0 (a.avg_points * (6/10) + a.consistency * (2/1000) * a.avg_points
          + a.trend_value * (2/10)))) ∧
    0 ≤ calculate_player_value db pid :=
  ⟨value_of_not_found db pid, fun p => value_of_no_stats db pid p,
   fun p a => value_of_ok db pid p a, value_nonneg db pid⟩

/-- C4 witness: the constant 12.5-point RB (average 12.5, consistency 100,
slope 0) values to `round2(max 0 (7.5 + 2.5 + 0)) = 10`. -/
theorem c4_player_value_witness : calculate_player_value dbT ("a") = 10 := by
  rw [(c4_player_value dbT ("a")).2.2.1 pA _ dbT_ana_a]
  norm_num [round2, roundHalfEven]

/-- C5: for non-empty sides, `evaluate_trade` reports
`percent_change = (value_received - value_given)/value_given * 100` (0 when
the given value is 0, a neutral result rather than an error) and picks the
recommendation by the exclusive top-down thresholds 15, 5, -5, -15; values 10
vs 12 give 20% and STRONG ACCEPT, and a worthless given side gives 0% and
FAIR TRADE. -/
theorem c5_evaluate_trade :
    (∀ (db : Database) (outs ins : List String), outs ≠ [] → ins ≠ [] →
      ∃ ev, (evaluate_trade db outs ins).1 = TradeResult.ok ev ∧
        ev.percent_change = round2 (trade_percent_change
          ((outs.map (fun p => calculate_player_value db p)).sum)
          ((ins.map (fun p => calculate_player_value db p)).sum)) ∧
        ev.recommendation = trade_recommendation (trade_percent_change
          ((outs.map (fun p => calculate_player_value db p)).sum)
          ((ins.map (fun p => calculate_player_value db p)).sum))) ∧
    (∃ ev, (evaluate_trade dbT [("a")] [("b")]).1 = TradeResult.ok ev ∧
      ev.value_giving = 10 ∧ ev.value_receiving = 12 ∧
      ev.percent_change = 20 ∧ ev.recommendation = ("STRONG ACCEPT")) ∧
    (∃ ev, (evaluate_trade dbT [("z")] [("b")]).1 = TradeResult.ok ev ∧
      ev.value_giving = 0 ∧ (0:ℚ) < ev.value_receiving ∧
      ev.percent_change = 0 ∧ ev.recommendation = ("FAIR TRADE")) := by
  refine ⟨fun db outs ins h1 h2 => ?_, ?_, ?_⟩
  · rw [evaluate_trade, if_neg (by simp [h1, h2])]
    exact ⟨_, rfl, rfl, rfl⟩
  · exact ⟨_, by rw [dbT_trade_ab], rfl, rfl, rfl, rfl⟩
  · exact ⟨_, by rw [dbT_trade_zb], rfl, by norm_num, rfl, rfl⟩

/-- C5 witness: the 10-versus-12 trade evaluated through the general formula
yields the STRONG ACCEPT recommendation. -/
theorem c5_evaluate_trade_witness :
    ∃ ev, (evaluate_trade dbT [("a")] [("b")]).1 = TradeResult.ok ev ∧
      ev.recommendation = ("STRONG ACCEPT") := by
  obtain ⟨ev, h1, _, h3⟩ :=
    c5_evaluate_trade.1 dbT [("a")] [("b")] (by simp) (by simp)
  refine ⟨ev, h1, ?_⟩
  rw [h3]
  simp only [List.map_cons, List.map_nil, List.sum_cons, List.sum_nil, dbT_val_a, dbT_val_b]
  norm_num [trade_percent_change, trade_recommendation]

/-- C6 counterexample: a window with exactly one stat line worth 7 fantasy
points yields `recent_avg = 0`, not 7 as the claim states (the source guards
`np.mean(stats[:2])` behind `len(stats) >= 2` and falls back to 0). -/
theorem c6_recent_split_counterexample :
    get_player_analysis dbOne ("o") = AnalysisResult.ok pO
      { avg_points := 7, consistency := 0, trend := ("insufficient_data"), trend_value := 0,
        recent_avg := 0, earlier_avg := 0, recent_stats := [⟨7⟩],
        games_played := 1, total_points := 7 } ∧
    (get_player_stats dbOne ("o") (some WEEKS_TO_ANALYZE)).map (fun s => s.fantasy_points)
      = [7] ∧
    (0:ℚ) ≠ 7 := by
  refine ⟨dbOne_ana, ?_, by norm_num⟩
  rw [show (some WEEKS_TO_ANALYZE) = some 4 by rfl, dbOne_stats]
  norm_num

/-- C6 (amended): for a successfully analysed window, `recent_avg` is the
mean of the first 2 (newest) entries when at least 2 entries exist and 0
otherwise (in particular 0 for a single-line window, not that line's points);
`earlier_avg` is the mean of the entries from index 2 on when more than 2
exist, and equals `recent_avg` otherwise. -/
theorem c6_recent_split (db : Database) (pid : String) (p : Player) (a : Analysis)
    (h : get_player_analysis db pid = AnalysisResult.ok p a) :
    (2 ≤ (get_player_stats db pid (some WEEKS_TO_ANALYZE)).length →
      a.recent_avg = round2 (np_mean (((get_player_stats db pid
        (some WEEKS_TO_ANALYZE)).take 2).map (fun s => s.fantasy_points)))) ∧
    ((get_player_stats db pid (some WEEKS_TO_ANALYZE)).length < 2 →
      a.recent_avg = 0) ∧
    (2 < (get_player_stats db pid (some WEEKS_TO_ANALYZE)).length →
      a.earlier_avg = round2 (np_mean (((get_player_stats db pid
        (some WEEKS_TO_ANALYZE)).drop 2).map (fun s => s.fantasy_points)))) ∧
    ((get_player_stats db pid (some WEEKS_TO_ANALYZE)).length ≤ 2 →
      a.earlier_avg = a.recent_avg) := by
  obtain ⟨-, -, -, -, -, -, hrec, hear, -⟩ := analysis_ok_inv db pid p a h
  refine ⟨fun hl => ?_, fun hl => ?_, fun hl => ?_, fun hl => ?_⟩
  · rw [hrec, if_pos hl]
  · rw [hrec, if_neg (by omega)]
    norm_num [round2, roundHalfEven]
  · rw [hear, if_pos hl]
  · rw [hear, hrec, if_neg (by omega)]

/-- C6 witness: the two-game constant window of `dbT`'s roster RB has
`earlier_avg` equal to `recent_avg`. -/
theorem c6_recent_split_witness :
    ({ avg_points := 25/2, consistency := 100, trend := ("stable"), trend_value := 0,
       recent_avg := 25/2, earlier_avg := 25/2, recent_stats := [⟨25/2⟩, ⟨25/2⟩],
       games_played := 2, total_points := 25 } : Analysis).earlier_avg =
    ({ avg_points := 25/2, consistency := 100, trend := ("stable"), trend_value := 0,
       recent_avg := 25/2, earlier_avg := 25/2, recent_stats := [⟨25/2⟩, ⟨25/2⟩],
       games_played := 2, total_points := 25 } : Analysis).recent_avg :=
  (c6_recent_split dbT ("a") pA _ dbT_ana_a).2.2.2 (by
    rw [show (some WEEKS_TO_ANALYZE) = some 4 by rfl, dbT_stats_a]
    norm_num)

/-- C7: `evaluate_trade` returns its input-validation error exactly when one
of the two player lists is empty, and in that case the database state is
returned unchanged (no audit-log entry); on the success path the only state
change is the single audit-log append. -/
theorem c7_trade_validation (db : Database) (outs ins : List String) :
    ((∃ msg, (evaluate_trade db outs ins).1 = TradeResult.error msg) ↔
      (outs = [] ∨ ins = [])) ∧
    (outs = [] ∨ ins = [] → (evaluate_trade db outs ins).2 = db) ∧
    (¬(outs = [] ∨ ins = []) →
      (evaluate_trade db outs ins).2 = save_trade_analysis db outs ins
        (trade_recommendation (trade_percent_change
          ((outs.map (fun p => calculate_player_value db p)).sum)
          ((ins.map (fun p => calculate_player_value db p)).sum)))
        (((ins.map (fun p => calculate_player_value db p)).sum)
          - ((outs.map (fun p => calculate_player_value db p)).sum))) := by
  by_cases hemp : outs = [] ∨ ins = []
  · rw [evaluate_trade, if_pos hemp]
    exact ⟨⟨fun _ => hemp, fun _ => ⟨_, rfl⟩⟩, fun _ => rfl, fun h => absurd hemp h⟩
  · rw [evaluate_trade, if_neg hemp]
    refine ⟨⟨fun ⟨msg, h⟩ => ?_, fun h => absurd h hemp⟩, fun h => absurd h hemp, fun _ => rfl⟩
    simp at h

/-- C7 witness: an empty giving side is rejected and leaves the state
untouched. -/
theorem c7_trade_validation_witness :
    (∃ msg, (evaluate_trade dbT [] [("b")]).1 = TradeResult.error msg) ∧
    (evaluate_trade dbT [] [("b")]).2 = dbT :=
  ⟨(c7_trade_validation dbT [] [("b")]).1.mpr (Or.inl rfl),
   (c7_trade_validation dbT [] [("b")]).2.1 (Or.inl rfl)⟩

/-- C9 counterexample: `compare_players` produces the identical generic
failure for an unknown first player ("z") and for a known but statless first
player ("c") — the two failure states are collapsed, contradicting the claim
that both exposed analysis operations keep them distinguishable. -/
theorem c9_counterexample :
    compare_players dbT ("z") ("b") = compare_players dbT ("c") ("b") ∧
    get_player_analysis dbT ("z") = AnalysisResult.notFound ∧
    get_player_analysis dbT ("c") = AnalysisResult.noStats pC :=
  ⟨by rw [dbT_compare_zb, dbT_compare_cb], dbT_ana_z, dbT_ana_c⟩

/-- C9 (amended): `analyze` (get_player_analysis) keeps NotFound and NoStats
distinguishable — an unknown id yields the bare not-found result, a known id
with an empty window yields the no-stats result still carrying the player
record, and the two are never equal — but `compare` collapses any failure of
either side into the one generic error value. -/
theorem c9_error_distinguishability :
    (∀ (db : Database) (pid : String), get_player_by_id db pid = none →
      get_player_analysis db pid = AnalysisResult.notFound) ∧
    (∀ (db : Database) (pid : String) (p : Player), get_player_by_id db pid = some p →
      get_player_stats db pid (some WEEKS_TO_ANALYZE) = [] →
      get_player_analysis db pid = AnalysisResult.noStats p) ∧
    (∀ p : Player, AnalysisResult.noStats p ≠ AnalysisResult.notFound) ∧
    (∀ (db : Database) (pid1 pid2 : String),
      (get_player_analysis db pid1 = AnalysisResult.notFound ∨
        (∃ q, get_player_analysis db pid1 = AnalysisResult.noStats q) ∨
        get_player_analysis db pid2 = AnalysisResult.notFound ∨
        (∃ q, get_player_analysis db pid2 = AnalysisResult.noStats q)) →
      compare_players db pid1 pid2 =
        CompareResult.error ("One or both players not found or have no stats")) := by
  refine ⟨analysis_of_not_found, analysis_of_no_stats, analysis_no_stats_ne_not_found,
    fun db pid1 pid2 h => ?_⟩
  cases h1 : get_player_analysis db pid1 with
  | notFound => cases h2 : get_player_analysis db pid2 <;> rw [compare_players, h1, h2]
  | noStats q => cases h2 : get_player_analysis db pid2 <;> rw [compare_players, h1, h2]
  | ok pl a =>
    cases h2 : get_player_analysis db pid2 with
    | notFound => rw [compare_players, h1, h2]
    | noStats q => rw [compare_players, h1, h2]
    | ok pl2 a2 =>
      rcases h with h | ⟨q, h⟩ | h | ⟨q, h⟩ <;>
        (first
          | (rw [h1] at h; exact absurd h (by simp))
          | (rw [h2] at h; exact absurd h (by simp)))

/-- C9 witness: the statless player "c" is reported as the distinct no-stats
state (still carrying the player record), and an unknown first player makes
`compare` fail with the generic error. -/
theorem c9_error_distinguishability_witness :
    get_player_analysis dbT ("c") = AnalysisResult.noStats pC ∧
    compare_players dbT ("z") ("b") =
      CompareResult.error ("One or both players not found or have no stats") :=
  ⟨c9_error_distinguishability.2.1 dbT ("c") pC dbT_find_c (by
      rw [show (some WEEKS_TO_ANALYZE) = some 4 by rfl, dbT_stats_c]),
   c9_error_distinguishability.2.2.2 dbT ("z") ("b") (Or.inl dbT_ana_z)⟩

/-- C10: position rankings contain exactly the players of the position whose
window average is strictly positive (players with no stats, or whose window
averages to 0 or less, are silently excluded); every returned entry has a
positive average and the list is sorted by average descending. -/
theorem c10_position_rankings (db : Database) (position : String) (weeks : Option ℕ) :
    (∀ e ∈ get_position_rankings db position weeks,
      0 < e.avg_points ∧
      e.player ∈ get_all_players db (some position) ∧
      e.avg_points = calculate_average_points db e.player.player_id weeks ∧
      e.consistency = calculate_consistency db e.player.player_id weeks) ∧
    (∀ p ∈ get_all_players db (some position),
      calculate_average_points db p.player_id weeks ≤ 0 →
      ∀ e ∈ get_position_rankings db position weeks, e.player ≠ p) ∧
    (∀ p ∈ get_all_players db (some position),
      0 < calculate_average_points db p.player_id weeks →
      ∃ e ∈ get_position_rankings db position weeks, e.player = p) ∧
    List.Pairwise (fun a b => b.avg_points ≤ a.avg_points)
      (get_position_rankings db position weeks) := by
  have hmem : ∀ e, e ∈ get_position_rankings db position weeks ↔
      ∃ p ∈ get_all_players db (some position),
        0 < calculate_average_points db p.player_id weeks ∧
        e = { player := p, avg_points := calculate_average_points db p.player_id weeks,
              consistency := calculate_consistency db p.player_id weeks } := by
    intro e
    simp only [get_position_rankings]
    rw [List.Perm.mem_iff (List.mergeSort_perm _ _), List.mem_filterMap]
    constructor
    · rintro ⟨p, hp, hf⟩
      by_cases h : 0 < calculate_average_points db p.player_id weeks
      · rw [if_pos h] at hf
        injection hf with hf
        exact ⟨p, hp, h, hf.symm⟩
      · rw [if_neg h] at hf
        cases hf
    · rintro ⟨p, hp, h, rfl⟩
      exact ⟨p, hp, by rw [if_pos h]⟩
  refine ⟨?_, ?_, ?_, ?_⟩
  · intro e he
    obtain ⟨p, hp, h, rfl⟩ := (hmem e).mp he
    exact ⟨h, hp, rfl, rfl⟩
  · intro p hp hle e he hep
    obtain ⟨q, hq, h, rfl⟩ := (hmem e).mp he
    have : q = p := hep
    rw [this] at h
    exact absurd hle (by linarith)
  · intro p hp h
    exact ⟨_, (hmem _).mpr ⟨p, hp, h, rfl⟩, rfl⟩
  · have hsorted := @List.sorted_mergeSort RankEntry
      (fun a b : RankEntry => decide (b.avg_points ≤ a.avg_points))
      (fun a b c hab hbc => by
        simp only [decide_eq_true_eq] at *
        exact le_trans hbc hab)
      (fun a b => by
        simp only [Bool.or_eq_true, decide_eq_true_eq]
        exact le_total _ _)
      ((get_all_players db (some position)).filterMap (fun player =>
        if 0 < calculate_average_points db player.player_id weeks then
          some { player := player,
                 avg_points := calculate_average_points db player.player_id weeks,
                 consistency := calculate_consistency db player.player_id weeks }
        else none))
    simp only [get_position_rankings]
    exact hsorted.imp (fun h => by simpa using h)

/-- C10 witness: the constant 12.5-point RB has positive average, so the RB
rankings of `dbT` contain an entry for it. -/
theorem c10_position_rankings_witness :
    ∃ e ∈ get_position_rankings dbT ("RB") none, e.player = pA := by
  refine (c10_position_rankings dbT ("RB") none).2.2.1 pA ?_ ?_
  · simp [get_all_players, dbT, pA, pB, pC]
  · rw [show pA.player_id = ("a") by rfl, dbT_avg_a]
    norm_num

/-! ### Concrete evaluations on `dbU` -/

theorem dbU_find_w : get_player_by_id dbU ("w") = some pW := by
  simp [get_player_by_id, dbU, pW, pX]

theorem dbU_find_x : get_player_by_id dbU ("x") = some pX := by
  simp [get_player_by_id, dbU, pW, pX]

theorem dbU_stats_w : get_player_stats dbU ("w") (some 4) = [⟨25/2⟩, ⟨25/2⟩] := by
  simp [get_player_stats, dbU]

theorem dbU_stats_x : get_player_stats dbU ("x") (some 4) = [⟨75/4⟩, ⟨75/4⟩] := by
  simp [get_player_stats, dbU]

theorem dbU_avg_w : calculate_average_points dbU ("w") none = 25/2 := by
  rw [calculate_average_points]
  rw [show (some (orWeeks none)) = some 4 by rfl, dbU_stats_w]
  norm_num [round2, roundHalfEven]
  exact List.cons_ne_nil _ _

theorem dbU_avg_x : calculate_average_points dbU ("x") none = 75/4 := by
  rw [calculate_average_points]
  rw [show (some (orWeeks none)) = some 4 by rfl, dbU_stats_x]
  norm_num [round2, roundHalfEven]
  exact List.cons_ne_nil _ _

theorem dbU_cons_w : calculate_consistency dbU ("w") none = 100 := by
  rw [calculate_consistency]
  rw [show (some (orWeeks none)) = some 4 by rfl, dbU_stats_w]
  exact consistency_of_const _ (25/2) (by norm_num) (by norm_num) (by
    intro x hx
    simp at hx
    simpa using hx)

theorem dbU_cons_x : calculate_consistency dbU ("x") none = 100 := by
  rw [calculate_consistency]
  rw [show (some (orWeeks none)) = some 4 by rfl, dbU_stats_x]
  exact consistency_of_const _ (75/4) (by norm_num) (by norm_num) (by
    intro x hx
    simp at hx
    simpa using hx)

theorem dbU_trend_w : calculate_trend dbU ("w") none = (("stable"), 0) := by
  rw [calculate_trend]
  rw [show (some (orWeeks none)) = some 4 by rfl, dbU_stats_w]
  norm_num [polyfit_slope, np_mean, List.range_succ, round2, roundHalfEven]

theorem dbU_trend_x : calculate_trend dbU ("x") none = (("stable"), 0) := by
  rw [calculate_trend]
  rw [show (some (orWeeks none)) = some 4 by rfl, dbU_stats_x]
  norm_num [polyfit_slope, np_mean, List.range_succ, round2, roundHalfEven]

theorem dbU_ana_w : get_player_analysis dbU ("w") =
    AnalysisResult.ok pW
      { avg_points := 25/2, consistency := 100, trend := ("stable"), trend_value := 0,
        recent_avg := 25/2, earlier_avg := 25/2, recent_stats := [⟨25/2⟩, ⟨25/2⟩],
        games_played := 2, total_points := 25 } := by
  rw [get_player_analysis, dbU_find_w]
  rw [show (some WEEKS_TO_ANALYZE) = some 4 by rfl, dbU_stats_w]
  simp only [dbU_avg_w, dbU_cons_w, dbU_trend_w]
  norm_num [np_mean, round2, roundHalfEven]
  intro h
  exact (List.cons_ne_nil _ _ h).elim

theorem dbU_ana_x : get_player_analysis dbU ("x") =
    AnalysisResult.ok pX
      { avg_points := 75/4, consistency := 100, trend := ("stable"), trend_value := 0,
        recent_avg := 75/4, earlier_avg := 75/4, recent_stats := [⟨75/4⟩, ⟨75/4⟩],
        games_played := 2, total_points := 75/2 } := by
  rw [get_player_analysis, dbU_find_x]
  rw [show (some WEEKS_TO_ANALYZE) = some 4 by rfl, dbU_stats_x]
  simp only [dbU_avg_x, dbU_cons_x, dbU_trend_x]
  norm_num [np_mean, round2, roundHalfEven]
  intro h
  exact (List.cons_ne_nil _ _ h).elim

theorem dbU_val_w : calculate_player_value dbU ("w") = 10 := by
  rw [calculate_player_value, dbU_ana_w]
  norm_num [round2, roundHalfEven]

theorem dbU_val_x : calculate_player_value dbU ("x") = 15 := by
  rw [calculate_player_value, dbU_ana_x]
  norm_num [round2, roundHalfEven]

theorem dbU_team_filter_rb : (get_my_team dbU).filter (fun p => p.position == ("RB")) =
    [pW] := by
  simp [get_my_team, dbU, pW]

theorem dbU_weakest_rb : weakest_scan dbU [pW] = some (10, pW) := by
  simp [weakest_scan, dbU_val_w, pW]

theorem dbU_all_rb : get_all_players dbU (some ("RB")) = [pW, pX] := by
  simp [get_all_players, dbU, pW, pX]

/-- C8 counterexample: in `dbT` the weakest (only) roster RB is worth 10 and
the free-agent RB "b" is worth exactly 12 = 1.2 * 10 with 2 games played, so
the claim ("value >= 1.2 * weakest is flagged") demands it be flagged — but
the screen returns no opportunity at all: the source uses the strict
comparison `available_value > weakest_value * 1.2`. -/
theorem c8_upgrade_counterexample :
    find_upgrade_opportunities dbT (some ("RB")) = [] ∧
    get_my_team dbT = [pA] ∧
    calculate_player_value dbT ("a") = 10 ∧
    calculate_player_value dbT ("b") = 12 ∧
    weakest_scan dbT ((get_my_team dbT).filter (fun p => p.position == ("RB"))) =
      some (10, pA) ∧
    pB ∈ get_all_players dbT (some ("RB")) ∧
    pA.player_id ≠ pB.player_id ∧
    (12:ℚ) = (12/10) * 10 := by
  refine ⟨dbT_upgrades_rb, rfl, dbT_val_a, dbT_val_b, ?_, ?_, by decide, by norm_num⟩
  · rw [dbT_team_filter_rb, dbT_weakest_rb]
  · rw [dbT_all_rb]
    simp

/-- C8 (amended): the upgrade screen returns at most 10 entries, sorted by
value gain descending; every entry arises from a scanned position with a
weakest roster player, targets a non-roster player of that position whose
value STRICTLY exceeds 1.2 times the weakest value (a candidate at exactly
1.2 times is not flagged) and whose analysis succeeded with at least 2 games
played; and conversely every such candidate is flagged (before the sort and
the cap at 10). -/
theorem c8_upgrade_opportunities (db : Database) (position : Option String) :
    (find_upgrade_opportunities db position).length ≤ 10 ∧
    List.Pairwise (fun a b => b.value_gain ≤ a.value_gain)
      (find_upgrade_opportunities db position) ∧
    (∀ o ∈ find_upgrade_opportunities db position, o ∈ upgrade_candidates db position) ∧
    (∀ o ∈ upgrade_candidates db position,
      ∃ wv : ℚ,
        o.position ∈ upgrade_positions position ∧
        weakest_scan db ((get_my_team db).filter (fun p => p.position == o.position)) =
          some (wv, o.upgrade_from) ∧
        o.upgrade_to ∈ get_all_players db (some o.position) ∧
        (∀ p ∈ get_my_team db, p.player_id ≠ o.upgrade_to.player_id) ∧
        wv * (12/10) < calculate_player_value db o.upgrade_to.player_id ∧
        (∃ pl, get_player_analysis db o.upgrade_to.player_id =
          AnalysisResult.ok pl o.target_analysis) ∧
        2 ≤ o.target_analysis.games_played ∧
        o.value_gain = round2 (calculate_player_value db o.upgrade_to.player_id - wv)) ∧
    (∀ (pos : String) (wv : ℚ) (wp : Player), pos ∈ upgrade_positions position →
      weakest_scan db ((get_my_team db).filter (fun p => p.position == pos)) =
        some (wv, wp) →
      ∀ available ∈ get_all_players db (some pos),
        (get_my_team db).any (fun p => p.player_id == available.player_id) = false →
        wv * (12/10) < calculate_player_value db available.player_id →
        ∀ pl an, get_player_analysis db available.player_id = AnalysisResult.ok pl an →
          2 ≤ an.games_played →
          ({ position := pos, upgrade_from := wp, upgrade_to := available,
             value_gain := round2 (calculate_player_value db available.player_id - wv),
             target_analysis := an } : Opportunity) ∈ upgrade_candidates db position) := by
  refine ⟨?_, ?_, ?_, ?_, ?_⟩
  · rw [find_upgrade_opportunities, List.length_take]
    exact min_le_left _ _
  · rw [find_upgrade_opportunities]
    have hs := @List.sorted_mergeSort Opportunity
      (fun a b : Opportunity => decide (b.value_gain ≤ a.value_gain))
      (fun a b c hab hbc => by
        simp only [decide_eq_true_eq] at *
        exact le_trans hbc hab)
      (fun a b => by
        simp only [Bool.or_eq_true, decide_eq_true_eq]
        exact le_total _ _)
      (upgrade_candidates db position)
    exact List.Pairwise.sublist (List.take_sublist _ _) (hs.imp (fun h => by simpa using h))
  · intro o ho
    rw [find_upgrade_opportunities] at ho
    exact (List.mergeSort_perm _ _).subset ((List.take_sublist _ _).subset ho)
  · intro o ho
    rw [upgrade_candidates, List.mem_flatMap] at ho
    obtain ⟨pos, hpos, ho⟩ := ho
    cases hw : weakest_scan db ((get_my_team db).filter (fun p => p.position == pos)) with
    | none =>
      simp only [pos_opportunities, hw] at ho
      exact absurd ho (by simp)
    | some wvp =>
      obtain ⟨wv, wp⟩ := wvp
      simp only [pos_opportunities, hw] at ho
      rw [List.mem_filterMap] at ho
      obtain ⟨available, hav, hf⟩ := ho
      by_cases hany : (get_my_team db).any (fun p => p.player_id == available.player_id) = true
      · rw [if_pos hany] at hf
        cases hf
      · rw [if_neg hany] at hf
        by_cases hval : wv * (12/10) < calculate_player_value db available.player_id
        · rw [if_pos hval] at hf
          cases hana : get_player_analysis db available.player_id with
          | notFound =>
            rw [hana] at hf
            simp only [opportunity_check] at hf
            cases hf
          | noStats q =>
            rw [hana] at hf
            simp only [opportunity_check] at hf
            cases hf
          | ok pl an =>
            rw [hana] at hf
            simp only [opportunity_check] at hf
            by_cases hgames : 2 ≤ an.games_played
            · rw [if_pos hgames] at hf
              injection hf with hf
              subst hf
              refine ⟨wv, hpos, hw, hav, ?_, hval, ⟨pl, hana⟩, hgames, rfl⟩
              intro p hp
              have hfalse : (get_my_team db).any
                  (fun p => p.player_id == available.player_id) = false :=
                Bool.eq_false_iff.mpr hany
              have := List.any_eq_false.mp hfalse p hp
              simpa using this
            · rw [if_neg hgames] at hf
              cases hf
        · rw [if_neg hval] at hf
          cases hf
  · intro pos wv wp hpos hw available hav hany hval pl an hana hgames
    rw [upgrade_candidates, List.mem_flatMap]
    refine ⟨pos, hpos, ?_⟩
    simp only [pos_opportunities, hw]
    rw [List.mem_filterMap]
    refine ⟨available, hav, ?_⟩
    rw [if_neg (by simp [hany]), if_pos hval, hana]
    simp only [opportunity_check, if_pos hgames]

/-- C8 witness: in `dbU` the free-agent RB worth 15 strictly exceeds 1.2
times the weakest roster value 10 with 2 games played, so the screen flags
it with value gain 5. -/
theorem c8_upgrade_opportunities_witness :
    ({ position := ("RB"), upgrade_from := pW, upgrade_to := pX, value_gain := 5,
       target_analysis :=
         { avg_points := 75/4, consistency := 100, trend := ("stable"), trend_value := 0,
           recent_avg := 75/4, earlier_avg := 75/4, recent_stats := [⟨75/4⟩, ⟨75/4⟩],
           games_played := 2, total_points := 75/2 } } : Opportunity) ∈
      upgrade_candidates dbU (some ("RB")) := by
  have h := (c8_upgrade_opportunities dbU (some ("RB"))).2.2.2.2 ("RB") 10 pW
    (by simp [upgrade_positions])
    (by rw [dbU_team_filter_rb, dbU_weakest_rb])
    pX (by rw [dbU_all_rb]; simp)
    (by simp [get_my_team, dbU, pW, pX])
    (by rw [show pX.player_id = ("x") by rfl, dbU_val_x]; norm_num)
    pX _ (by rw [show pX.player_id = ("x") by rfl]; exact dbU_ana_x)
    (by norm_num)
  have heq : round2 (calculate_player_value dbU pX.player_id - 10) = 5 := by
    rw [show pX.player_id = ("x") by rfl, dbU_val_x]
    norm_num [round2, roundHalfEven]
  rwa [heq] at h
